import Mathlib

/-!
Shallow embedding of the monitorpy check-execution engine, and proofs about it.

Embedded source files:
* `src/monitorpy/monitorpy/core/result.py` — the `CheckResult` value type and its
  validated constructor.
* `src/monitorpy/monitorpy/core/registry.py` — the `PluginRegistry` table with
  `register` and `get_plugin`.
* `src/monitorpy/core/batch_runner.py` — `_run_single_check`,
  `run_checks_in_parallel` and `run_check_batch`.
* `src/monitorpy/monitorpy/plugins/dns_plugin.py` — the status-aggregation block of
  `DNSRecordPlugin.run_check` (lines 333-378) and `_check_propagation`
  (per-resolver classification and the consensus statistics, lines 729-873).

Modelling conventions: Python floats are modelled by `ℚ` (the arithmetic the code
performs is exact on the values of interest); Python exceptions are modelled by
`Except`; network I/O and plugin classes are oracles supplied as explicit
parameters (`PluginBehavior`, `QueryOutcome`); thread-pool completion order is
abstracted to submission order (every property proved here is insensitive to the
order in which futures complete); wall-clock values (`timestamp`, measured
response times) are carried as data but never computed from a clock.
-/

namespace MonitorPy

/-! ## CheckResult (result.py) -/

/-- Status constant `CheckResult.STATUS_SUCCESS` (result.py line 18). -/
def STATUS_SUCCESS : String := "success"

/-- Status constant `CheckResult.STATUS_WARNING` (result.py line 19). -/
def STATUS_WARNING : String := "warning"

/-- Status constant `CheckResult.STATUS_ERROR` (result.py line 20). -/
def STATUS_ERROR : String := "error"

/-- `CheckResult.VALID_STATUSES` (result.py line 23). -/
def VALID_STATUSES : List String := [STATUS_SUCCESS, STATUS_WARNING, STATUS_ERROR]

/-- A plugin configuration dictionary. The engine treats config values opaquely,
so string-valued entries suffice for every property proved here. -/
abbrev Config := List (String × String)

/-- One entry of a `raw_data` payload: either a plain string detail or a nested
config dictionary (the `{"config": config}` payload of the dispatcher). -/
inductive RawEntry where
  | kv (key value : String)
  | kvConfig (key : String) (value : Config)
deriving DecidableEq

/-- The open `raw_data` payload of a check result. -/
abbrev RawData := List RawEntry

/-- The `CheckResult` record (result.py lines 25-51) after a successful
construction. The `timestamp` field (wall-clock creation time) is omitted:
no property in this development depends on it. -/
structure CheckResult where
  status : String
  message : String
  response_time : ℚ
  raw_data : RawData
deriving DecidableEq

/-- `CheckResult.__init__` (result.py lines 25-51): raises
`ValueError("Invalid status: ...")` when `status` is not one of
`VALID_STATUSES`, otherwise stores the fields, defaulting a missing
(`None`) `raw_data` to the empty dict (`raw_data or {}`). -/
def checkResultInit (status message : String) (response_time : ℚ)
    (raw_data : Option RawData) : Except String CheckResult :=
  if status ∈ VALID_STATUSES then
    Except.ok { status := status, message := message, response_time := response_time,
                raw_data := raw_data.getD [] }
  else
    Except.error ("Invalid status: " ++ status)

/-! ## PluginRegistry (registry.py) -/

/-- A Python plugin class as the registry sees it: an identity (so that two
registered classes can be distinguished) together with the result of the
`issubclass(plugin_class, MonitorPlugin)` test. -/
structure PluginClass where
  clsId : ℕ
  inheritsMonitorPlugin : Bool
deriving DecidableEq

/-- The registry table `self.plugins` (registry.py line 24), an
insertion-ordered map from plugin name to plugin class. -/
structure PluginRegistry where
  plugins : List (String × PluginClass)
deriving DecidableEq

/-- Errors raised by `PluginRegistry.register`: `TypeError` when the class does
not inherit from `MonitorPlugin`, `ValueError` when the name is taken. -/
inductive RegistryError where
  | typeError (msg : String)
  | valueError (msg : String)
deriving DecidableEq

/-- `PluginRegistry.register` (registry.py lines 26-45). The `TypeError` guard
runs first; the duplicate-name guard raises before the table is extended, so a
failed call leaves the table untouched. -/
def PluginRegistry.register (reg : PluginRegistry) (name : String)
    (plugin_class : PluginClass) : Except RegistryError PluginRegistry :=
  if ¬ plugin_class.inheritsMonitorPlugin then
    Except.error (RegistryError.typeError "Plugin class must inherit from MonitorPlugin")
  else if (reg.plugins.lookup name).isSome then
    Except.error (RegistryError.valueError
      ("A plugin named " ++ name ++ " is already registered"))
  else
    Except.ok ⟨reg.plugins ++ [(name, plugin_class)]⟩

/-- `PluginRegistry.get_plugin` (registry.py lines 47-65): raises `ValueError`
when the name is absent, otherwise instantiates the registered class with the
given config. A plugin instance is modelled as the pair (class, config). -/
def PluginRegistry.get_plugin (reg : PluginRegistry) (name : String)
    (config : Config) : Except String (PluginClass × Config) :=
  match reg.plugins.lookup name with
  | Option.none => Except.error ("Plugin " ++ name ++ " not found in registry")
  | Option.some cls => Except.ok (cls, config)

/-! ## Claims C7 and C8 -/

/-- C7: constructing a `CheckResult` succeeds exactly when the status is one of
`success`, `warning`, `error`; any other status string makes the constructor
raise (`ValueError`, the spec's `InvalidStatus`) and no `CheckResult` value is
produced. -/
theorem checkResultInit_valid_iff (s m : String) (t : ℚ) (d : Option RawData) :
    ((∃ r, checkResultInit s m t d = Except.ok r) ↔ s ∈ VALID_STATUSES) ∧
    (s ∈ VALID_STATUSES →
      checkResultInit s m t d = Except.ok ⟨s, m, t, d.getD []⟩) ∧
    (s ∉ VALID_STATUSES →
      checkResultInit s m t d = Except.error ("Invalid status: " ++ s)) := by
  unfold checkResultInit
  by_cases h : s ∈ VALID_STATUSES
  · rw [if_pos h]
    exact ⟨⟨fun _ => h, fun _ => ⟨_, rfl⟩⟩, fun _ => rfl, fun hc => absurd h hc⟩
  · rw [if_neg h]
    exact ⟨⟨fun ⟨r, hr⟩ => Except.noConfusion hr, fun hc => absurd hc h⟩,
      fun hc => absurd hc h, fun _ => rfl⟩

/-- Witness for C7: the constructor succeeds on `success` and raises on the
status string `bogus`. -/
theorem checkResultInit_valid_iff_witness :
    checkResultInit "success" "ok" 0 Option.none =
      Except.ok ⟨"success", "ok", 0, (Option.none : Option RawData).getD []⟩ ∧
    checkResultInit "bogus" "x" 0 Option.none =
      Except.error ("Invalid status: " ++ "bogus") :=
  ⟨(checkResultInit_valid_iff "success" "ok" 0 Option.none).2.1 (by decide),
   (checkResultInit_valid_iff "bogus" "x" 0 Option.none).2.2 (by decide)⟩

/-- C8: registering a name that is already present fails with the duplicate
registration `ValueError` (for any plugin class satisfying the declared
`Type[MonitorPlugin]` bound), no new table is produced, and `get_plugin` on the
untouched registry still instantiates the originally registered class. -/
theorem register_duplicate_keeps_first (reg : PluginRegistry) (name : String)
    (cls₀ cls₁ : PluginClass) (config : Config)
    (hmem : reg.plugins.lookup name = Option.some cls₀)
    (hsub : cls₁.inheritsMonitorPlugin = true) :
    reg.register name cls₁ =
      Except.error (RegistryError.valueError
        ("A plugin named " ++ name ++ " is already registered")) ∧
    reg.get_plugin name config = Except.ok (cls₀, config) := by
  unfold PluginRegistry.register PluginRegistry.get_plugin
  rw [hmem, hsub]
  exact ⟨rfl, rfl⟩

/-- Witness for C8: a registry holding `dns_record` rejects a second
registration under the same name and keeps dispatching to the first class. -/
theorem register_duplicate_keeps_first_witness :
    PluginRegistry.register ⟨[("dns_record", ⟨0, true⟩)]⟩ "dns_record" ⟨1, true⟩ =
      Except.error (RegistryError.valueError
        ("A plugin named " ++ "dns_record" ++ " is already registered")) ∧
    PluginRegistry.get_plugin ⟨[("dns_record", ⟨0, true⟩)]⟩ "dns_record" [] =
      Except.ok (⟨0, true⟩, []) :=
  register_duplicate_keeps_first ⟨[("dns_record", ⟨0, true⟩)]⟩ "dns_record"
    ⟨0, true⟩ ⟨1, true⟩ [] (by decide) (by decide)

/-! ## Batch runner (batch_runner.py) -/

/-- A check descriptor as submitted to the batch runner: a plain dictionary
whose relevant keys are `id`, `plugin_type` and `config`, each possibly
absent (`Option.none`). The runner reads `check["plugin_type"]` (no default)
and `check.get("config", {})`. -/
structure Descriptor where
  id : Option String
  plugin_type : Option String
  config : Option Config
deriving DecidableEq

/-- Oracle for what one worker's dispatch does for a given
`(plugin_type, config)`: which line of `_run_single_check`
(batch_runner.py lines 85-118) the outside world makes fire. `notFound` is
`registry.get_plugin` raising `ValueError`; the `...Raises` constructors carry
the exception's message and type name; `validateFalse` is `validate_config()`
returning `False`; `runReturns r` is a normal `run_check()` returning `r`. -/
inductive PluginBehavior where
  | notFound
  | constructorRaises (msg ty : String)
  | validateRaises (msg ty : String)
  | validateFalse
  | runRaises (msg ty : String)
  | runReturns (r : CheckResult)
deriving DecidableEq

/-- Body of the `try:` block of `_run_single_check` (batch_runner.py lines
96-110): an exception (message, type name) or a returned `CheckResult`.
The registry's not-found message elides the quotes around the plugin name. -/
def runSingleCheckBody (plugin_type : String) (config : Config)
    (b : PluginBehavior) : Except (String × String) CheckResult :=
  match b with
  | PluginBehavior.notFound =>
      Except.error ("Plugin " ++ plugin_type ++ " not found in registry", "ValueError")
  | PluginBehavior.constructorRaises msg ty => Except.error (msg, ty)
  | PluginBehavior.validateRaises msg ty => Except.error (msg, ty)
  | PluginBehavior.validateFalse =>
      Except.ok ⟨STATUS_ERROR, "Invalid configuration for plugin " ++ plugin_type, 0,
        [RawEntry.kvConfig "config" config]⟩
  | PluginBehavior.runRaises msg ty => Except.error (msg, ty)
  | PluginBehavior.runReturns r => Except.ok r

/-- `_run_single_check` (batch_runner.py lines 85-118): the `except Exception`
handler converts any exception from lookup, construction, validation or
execution into an error-status `CheckResult`; the function is total. -/
def runSingleCheck (plugin_type : String) (config : Config)
    (b : PluginBehavior) : CheckResult :=
  match runSingleCheckBody plugin_type config b with
  | Except.ok r => r
  | Except.error e =>
      ⟨STATUS_ERROR, "Exception running check: " ++ e.1, 0,
        [RawEntry.kv "error" e.1, RawEntry.kv "error_type" e.2]⟩

/-- One submitted task, as the runner's model of the world sees it:
the dispatch behavior its worker will exhibit, and whether its future
completes before the batch deadline (meaningful only when a finite
`timeout` was supplied). -/
structure TaskSpec where
  behavior : PluginBehavior
  byDeadline : Bool
deriving DecidableEq

/-- Exceptions that can escape the batch runner: `KeyError` from
`check["plugin_type"]` during submission, `concurrent.futures.TimeoutError`
from `as_completed(..., timeout=...)`, and `ValueError` from
`range(0, n, 0)` inside `run_check_batch`. -/
inductive BatchError where
  | keyError
  | timeoutError
  | valueError
deriving DecidableEq

/-- The (descriptor, result) pair a completed task contributes: the submission
passes `check["plugin_type"]` and `check.get("config", {})` to
`_run_single_check` (batch_runner.py lines 49-54); the completion loop pairs
the result with the originating descriptor (lines 57-61). -/
def dispatchResult (c : Descriptor × TaskSpec) : Descriptor × CheckResult :=
  (c.1, runSingleCheck (c.1.plugin_type.getD "") (c.1.config.getD []) c.2.behavior)

/-- `run_checks_in_parallel` (batch_runner.py lines 20-82). The submission
dict-comprehension evaluates `check["plugin_type"]` in the calling thread, so a
descriptor missing that key raises `KeyError` before any waiting happens. When
a finite `timeout` is supplied (`hasTimeout`), `as_completed` raises
`TimeoutError` as soon as the deadline passes with some future still
incomplete; that exception is not caught by the runner (the `try` around
`future.result()` does not cover the `for` statement), so the call raises and
no partial result list is returned. Otherwise the loop collects every task's
result. `future.result()` re-raising is dead code here because
`_run_single_check` is total, matching the source. Completion order is
abstracted to submission order. -/
def runChecksInParallel (checks : List (Descriptor × TaskSpec)) (hasTimeout : Bool) :
    Except BatchError (List (Descriptor × CheckResult)) :=
  if checks.any (fun c => c.1.plugin_type.isNone) then
    Except.error BatchError.keyError
  else if hasTimeout && checks.any (fun c => !c.2.byDeadline) then
    Except.error BatchError.timeoutError
  else
    Except.ok (checks.map dispatchResult)

/-- The batch list-comprehension of `run_check_batch` (batch_runner.py lines
144-146) for a positive `batch_size` `k`:
`[check_configs[i : i + k] for i in range(0, total, k)]`. -/
def pythonChunks {α : Type} (l : List α) (k : ℕ) : List (List α) :=
  (List.range ((l.length + k - 1) / k)).map (fun i => (l.drop (i * k)).take k)

/-- The chunk construction of `run_check_batch`, including Python's `range`
semantics for degenerate steps: `range(0, n, 0)` raises `ValueError`, and a
negative step with stop `n ≥ 0` yields no indices at all, hence no batches. -/
def makeBatches {α : Type} (l : List α) (batch_size : ℤ) :
    Except BatchError (List (List α)) :=
  if batch_size = 0 then Except.error BatchError.valueError
  else if batch_size < 0 then Except.ok []
  else Except.ok (pythonChunks l batch_size.toNat)

/-- One iteration of the `for i, batch in enumerate(batches)` loop of
`run_check_batch` (batch_runner.py lines 150-153): run the batch through the
parallel runner and extend the accumulated results; an exception escaping the
runner aborts the loop. -/
def runCheckBatchStep (hasTimeout : Bool)
    (acc : Except BatchError (List (Descriptor × CheckResult)))
    (batch : List (Descriptor × TaskSpec)) :
    Except BatchError (List (Descriptor × CheckResult)) :=
  match acc with
  | Except.error e => Except.error e
  | Except.ok l =>
      match runChecksInParallel batch hasTimeout with
      | Except.error e => Except.error e
      | Except.ok rs => Except.ok (l ++ rs)

/-- `run_check_batch` (batch_runner.py lines 121-155): partition the
descriptors into consecutive chunks of `batch_size` and run
`run_checks_in_parallel` once per chunk in sequence, concatenating the
per-chunk results. -/
def runCheckBatch (checks : List (Descriptor × TaskSpec)) (batch_size : ℤ)
    (hasTimeout : Bool) : Except BatchError (List (Descriptor × CheckResult)) :=
  match makeBatches checks batch_size with
  | Except.error e => Except.error e
  | Except.ok batches => batches.foldl (runCheckBatchStep hasTimeout) (Except.ok [])

/-- A dispatch behavior "faults" when it is anything other than `run_check`
returning normally: lookup failure, constructor/validation/execution
exception, or validation returning `False`. -/
def PluginBehavior.faults : PluginBehavior → Bool
  | PluginBehavior.runReturns _ => false
  | _ => true

/-- Helper: when every descriptor carries a `plugin_type` key, the submission
comprehension raises no `KeyError`. -/
theorem any_plugin_type_isNone_false (checks : List (Descriptor × TaskSpec))
    (hpt : ∀ c ∈ checks, c.1.plugin_type.isSome) :
    checks.any (fun c => c.1.plugin_type.isNone) = false := by
  rw [List.any_eq_false]
  intro c hc
  have h := hpt c hc
  simp only [Option.isSome_iff_ne_none] at h
  simp [Option.isNone_iff_eq_none, h]

/-- Helper: with every `plugin_type` present and either no finite timeout or
every task completing by the deadline, the runner returns the full pairing. -/
theorem runChecksInParallel_ok_all_present (checks : List (Descriptor × TaskSpec))
    (ht : Bool) (hpt : ∀ c ∈ checks, c.1.plugin_type.isSome)
    (hdl : ht = true → ∀ c ∈ checks, c.2.byDeadline = true) :
    runChecksInParallel checks ht = Except.ok (checks.map dispatchResult) := by
  unfold runChecksInParallel
  rw [any_plugin_type_isNone_false checks hpt]
  have h2 : (ht && checks.any (fun c => !c.2.byDeadline)) = false := by
    rcases Bool.eq_false_or_eq_true ht with hht | hht
    · subst hht
      rw [Bool.true_and, List.any_eq_false]
      intro c hc
      rw [hdl rfl c hc]
      simp
    · subst hht
      rfl
  rw [h2]
  simp

/-! ## Claim C4 -/

/-- C4: with every descriptor carrying a `plugin_type` key and no batch timeout
in effect, `run_checks_in_parallel` returns exactly one (descriptor, result)
pair per input descriptor, in which every input descriptor appears exactly
once; no exception from plugin lookup, construction, validation or execution
escapes: a faulting task yields an error-status result for its own descriptor
while a normally-returning task's descriptor receives its real result. -/
theorem runChecksInParallel_no_timeout_total (checks : List (Descriptor × TaskSpec))
    (hpt : ∀ c ∈ checks, c.1.plugin_type.isSome) :
    runChecksInParallel checks false = Except.ok (checks.map dispatchResult) ∧
    (checks.map dispatchResult).length = checks.length ∧
    (checks.map dispatchResult).map Prod.fst = checks.map Prod.fst ∧
    (∀ pt config b, PluginBehavior.faults b = true →
      (runSingleCheck pt config b).status = STATUS_ERROR) ∧
    (∀ pt config r, runSingleCheck pt config (PluginBehavior.runReturns r) = r) := by
  refine ⟨runChecksInParallel_ok_all_present checks false hpt (fun h => by simp at h),
    by simp, ?_, ?_, fun pt config r => rfl⟩
  · rw [List.map_map]
    rfl
  · intro pt config b hb
    cases b <;> first | rfl | simp [PluginBehavior.faults] at hb

/-- Witness for C4: a two-descriptor batch where the second task raises inside
`run_check` still yields both pairs, the faulting one with error status. -/
theorem runChecksInParallel_no_timeout_total_witness :
    runChecksInParallel
      [(⟨Option.some "c1", Option.some "website_status", Option.some []⟩,
        ⟨PluginBehavior.runReturns ⟨"success", "Website check successful", 0, []⟩, true⟩),
       (⟨Option.some "c2", Option.some "ssl_certificate", Option.some []⟩,
        ⟨PluginBehavior.runRaises "Test exception" "Exception", true⟩)] false =
      Except.ok
        ([(⟨Option.some "c1", Option.some "website_status", Option.some []⟩,
           ⟨PluginBehavior.runReturns ⟨"success", "Website check successful", 0, []⟩, true⟩),
          (⟨Option.some "c2", Option.some "ssl_certificate", Option.some []⟩,
           ⟨PluginBehavior.runRaises "Test exception" "Exception", true⟩)].map dispatchResult) :=
  (runChecksInParallel_no_timeout_total _ (by decide)).1

/-! ## Claim C1 -/

/-- C1 is false on the code: with a finite timeout and a single task whose
future has not completed by the deadline, `as_completed` raises
`TimeoutError`, the exception is not caught, and the call produces no result
list at all — the unfinished descriptor is not paired with a timeout-tagged
error result. -/
theorem runChecksInParallel_timeout_raises :
    runChecksInParallel
      [(⟨Option.some "t1", Option.some "website_status", Option.some []⟩,
        ⟨PluginBehavior.runReturns ⟨STATUS_SUCCESS, "ok", 0, []⟩, false⟩)] true =
      Except.error BatchError.timeoutError ∧
    ∀ l, runChecksInParallel
      [(⟨Option.some "t1", Option.some "website_status", Option.some []⟩,
        ⟨PluginBehavior.runReturns ⟨STATUS_SUCCESS, "ok", 0, []⟩, false⟩)] true ≠
      Except.ok l := by
  have h0 : runChecksInParallel
      [(⟨Option.some "t1", Option.some "website_status", Option.some []⟩,
        ⟨PluginBehavior.runReturns ⟨STATUS_SUCCESS, "ok", 0, []⟩, false⟩)] true =
      Except.error BatchError.timeoutError := rfl
  refine ⟨h0, fun l h => ?_⟩
  rw [h0] at h
  exact Except.noConfusion h

/-- C1 amended: when a finite timeout is supplied and some task has not
completed by the deadline, `run_checks_in_parallel` raises `TimeoutError`
(returning nothing, not even the completed siblings' results); only when every
task completes by the deadline does it return, pairing each descriptor with
its result. -/
theorem runChecksInParallel_timeout_behavior (checks : List (Descriptor × TaskSpec))
    (hpt : ∀ c ∈ checks, c.1.plugin_type.isSome) :
    ((∃ c ∈ checks, c.2.byDeadline = false) →
      runChecksInParallel checks true = Except.error BatchError.timeoutError) ∧
    ((∀ c ∈ checks, c.2.byDeadline = true) →
      runChecksInParallel checks true = Except.ok (checks.map dispatchResult)) := by
  constructor
  · rintro ⟨c, hc, hb⟩
    unfold runChecksInParallel
    rw [any_plugin_type_isNone_false checks hpt]
    have h2 : checks.any (fun c => !c.2.byDeadline) = true := by
      rw [List.any_eq_true]
      exact ⟨c, hc, by rw [hb]; rfl⟩
    rw [h2]
    simp
  · intro hall
    exact runChecksInParallel_ok_all_present checks true hpt (fun _ => hall)

/-- Witness for C1's amended statement: a batch with one on-time task and one
task missing the deadline raises `TimeoutError`. -/
theorem runChecksInParallel_timeout_behavior_witness :
    runChecksInParallel
      [(⟨Option.some "a", Option.some "website_status", Option.some []⟩,
        ⟨PluginBehavior.runReturns ⟨"success", "ok", 0, []⟩, true⟩),
       (⟨Option.some "b", Option.some "dns_record", Option.some []⟩,
        ⟨PluginBehavior.runReturns ⟨"success", "ok", 0, []⟩, false⟩)] true =
      Except.error BatchError.timeoutError :=
  (runChecksInParallel_timeout_behavior _ (by decide)).1 (by decide)

/-! ## Claim C5 -/

/-- C5 is false on the code: a descriptor missing its `plugin_type` key makes
the submission comprehension raise `KeyError`, aborting the whole batch — the
descriptor gets no structured error result and the call itself raises. -/
theorem runChecksInParallel_missing_plugin_type_raises :
    runChecksInParallel
      [(⟨Option.some "t1", Option.none, Option.some []⟩,
        ⟨PluginBehavior.validateFalse, true⟩)] false =
      Except.error BatchError.keyError ∧
    ∀ l, runChecksInParallel
      [(⟨Option.some "t1", Option.none, Option.some []⟩,
        ⟨PluginBehavior.validateFalse, true⟩)] false ≠ Except.ok l := by
  have h0 : runChecksInParallel
      [(⟨Option.some "t1", Option.none, Option.some []⟩,
        ⟨PluginBehavior.validateFalse, true⟩)] false =
      Except.error BatchError.keyError := rfl
  refine ⟨h0, fun l h => ?_⟩
  rw [h0] at h
  exact Except.noConfusion h

/-- C5 amended: a descriptor missing `plugin_type` aborts the entire batch with
`KeyError` (no structured per-descriptor error, the call raises); only a
missing `config` is tolerated — it defaults to the empty dict and the
descriptor flows through the dispatcher's validation paths, yielding a result
without aborting the batch. -/
theorem runChecksInParallel_missing_fields (checks : List (Descriptor × TaskSpec))
    (d : Descriptor) (t : TaskSpec) (ht : Bool)
    (hd : d.plugin_type = Option.none) (hmem : (d, t) ∈ checks) :
    runChecksInParallel checks ht = Except.error BatchError.keyError ∧
    (∀ (i : Option String) (pt : String) (t' : TaskSpec),
      runChecksInParallel [(⟨i, Option.some pt, Option.none⟩, t')] false =
        Except.ok [(⟨i, Option.some pt, Option.none⟩,
          runSingleCheck pt [] t'.behavior)]) := by
  constructor
  · unfold runChecksInParallel
    have h1 : checks.any (fun c => c.1.plugin_type.isNone) = true := by
      rw [List.any_eq_true]
      exact ⟨(d, t), hmem, by rw [hd]; rfl⟩
    rw [h1]
    simp
  · intro i pt t'
    rfl

/-- Witness for C5's amended statement: a batch containing a descriptor without
`plugin_type` raises `KeyError`, while a descriptor without `config` is
dispatched with the empty config. -/
theorem runChecksInParallel_missing_fields_witness :
    runChecksInParallel
      [(⟨Option.some "t1", Option.none, Option.some []⟩,
        ⟨PluginBehavior.validateFalse, true⟩),
       (⟨Option.some "t2", Option.some "website_status", Option.some []⟩,
        ⟨PluginBehavior.runReturns ⟨"success", "ok", 0, []⟩, true⟩)] false =
      Except.error BatchError.keyError ∧
    runChecksInParallel
      [(⟨Option.some "t3", Option.some "mail_server", Option.none⟩,
        ⟨PluginBehavior.validateFalse, true⟩)] false =
      Except.ok [(⟨Option.some "t3", Option.some "mail_server", Option.none⟩,
        runSingleCheck "mail_server" [] PluginBehavior.validateFalse)] := by
  have h := runChecksInParallel_missing_fields
    [(⟨Option.some "t1", Option.none, Option.some []⟩,
      ⟨PluginBehavior.validateFalse, true⟩),
     (⟨Option.some "t2", Option.some "website_status", Option.some []⟩,
      ⟨PluginBehavior.runReturns ⟨"success", "ok", 0, []⟩, true⟩)]
    ⟨Option.some "t1", Option.none, Option.some []⟩
    ⟨PluginBehavior.validateFalse, true⟩ false rfl (by decide)
  exact ⟨h.1, h.2 (Option.some "t3") "mail_server" ⟨PluginBehavior.validateFalse, true⟩⟩

/-! ## Claims C6 and C9 -/

/-- Helper: the Python chunk comprehension produces `ceil(N / k)` chunks. -/
theorem pythonChunks_length {α : Type} (l : List α) (k : ℕ) :
    (pythonChunks l k).length = (l.length + k - 1) / k := by
  simp [pythonChunks]

/-- Helper: for a positive chunk size the consecutive chunks reassemble the
original list. -/
theorem pythonChunks_flatten {α : Type} (k : ℕ) (hk : 1 ≤ k) (l : List α) :
    (pythonChunks l k).flatten = l := by
  generalize hn : l.length = n
  induction n using Nat.strong_induction_on generalizing l with
  | _ n ih =>
    cases l with
    | nil =>
      have h0 : (0 + k - 1) / k = 0 := Nat.div_eq_of_lt (by omega)
      simp [pythonChunks, h0]
    | cons a t =>
      have hn1 : 1 ≤ n := by
        subst hn
        simp
      have hceil : (n + k - 1) / k = ((n - k) + k - 1) / k + 1 := by
        have h1 : n + k - 1 = (n - 1) + k := by omega
        rw [h1, Nat.add_div_right _ (by omega : 0 < k)]
        rcases le_or_lt k n with hkn | hkn
        · have h2 : n - k + k - 1 = n - 1 := by omega
          rw [h2]
        · have h2 : n - k = 0 := by omega
          rw [h2]
          have h3 : 0 + k - 1 = k - 1 := by omega
          rw [h3, Nat.div_eq_of_lt (by omega), Nat.div_eq_of_lt (by omega)]
      have hlen : (a :: t).length = n := hn
      unfold pythonChunks
      rw [hlen, hceil, List.range_succ_eq_map]
      simp only [List.map_cons, List.flatten_cons, List.map_map]
      have hfun : ((fun i => ((a :: t).drop (i * k)).take k) ∘ Nat.succ) =
          (fun i => (((a :: t).drop k).drop (i * k)).take k) := by
        funext i
        simp only [Function.comp_apply]
        congr 1
        rw [List.drop_drop]
        congr 1
        rw [Nat.succ_mul]
        exact Nat.add_comm _ _
      rw [hfun]
      have hdl : ((a :: t).drop k).length = n - k := by
        rw [List.length_drop, hlen]
      have happ := ih (n - k) (by omega) ((a :: t).drop k) hdl
      unfold pythonChunks at happ
      rw [hdl] at happ
      rw [happ]
      simp [List.take_append_drop]

/-- Helper: when every chunk's parallel run succeeds, the sequential fold of
`run_check_batch` accumulates the concatenation of the per-chunk results. -/
theorem foldl_runCheckBatchStep (ht : Bool) :
    ∀ (batches : List (List (Descriptor × TaskSpec)))
      (acc : List (Descriptor × CheckResult)),
      (∀ batch ∈ batches,
        runChecksInParallel batch ht = Except.ok (batch.map dispatchResult)) →
      batches.foldl (runCheckBatchStep ht) (Except.ok acc) =
        Except.ok (acc ++ (batches.map (fun batch => batch.map dispatchResult)).flatten) := by
  intro batches
  induction batches with
  | nil =>
    intro acc _
    simp
  | cons b bs ih =>
    intro acc h
    rw [List.foldl_cons]
    have hb := h b (List.mem_cons_self b bs)
    have hstep : runCheckBatchStep ht (Except.ok acc) b =
        Except.ok (acc ++ b.map dispatchResult) := by
      unfold runCheckBatchStep
      rw [hb]
    rw [hstep, ih (acc ++ b.map dispatchResult) (fun x hx => h x (List.mem_cons_of_mem b hx))]
    simp

/-- C6: for a batch size `b ≥ 1` and descriptors all carrying `plugin_type`,
`run_check_batch` partitions the input into `ceil(N / b)` consecutive chunks
(the last possibly smaller), runs the parallel runner once per chunk in
sequence, and returns the concatenation of the per-chunk results in chunk
order — exactly `N` (descriptor, result) pairs. -/
theorem runCheckBatch_chunking (checks : List (Descriptor × TaskSpec)) (b : ℤ)
    (hb : 1 ≤ b) (hpt : ∀ c ∈ checks, c.1.plugin_type.isSome) :
    makeBatches checks b = Except.ok (pythonChunks checks b.toNat) ∧
    (pythonChunks checks b.toNat).length = (checks.length + b.toNat - 1) / b.toNat ∧
    (pythonChunks checks b.toNat).flatten = checks ∧
    (∀ batch ∈ pythonChunks checks b.toNat,
      runChecksInParallel batch false = Except.ok (batch.map dispatchResult)) ∧
    runCheckBatch checks b false =
      Except.ok (((pythonChunks checks b.toNat).map
        (fun batch => batch.map dispatchResult)).flatten) ∧
    ((pythonChunks checks b.toNat).map
        (fun batch => batch.map dispatchResult)).flatten = checks.map dispatchResult ∧
    (checks.map dispatchResult).length = checks.length := by
  have hk : 1 ≤ b.toNat := by omega
  have h1 : makeBatches checks b = Except.ok (pythonChunks checks b.toNat) := by
    unfold makeBatches
    rw [if_neg (by omega), if_neg (by omega)]
  have h3 : (pythonChunks checks b.toNat).flatten = checks :=
    pythonChunks_flatten b.toNat hk checks
  have h4 : ∀ batch ∈ pythonChunks checks b.toNat,
      runChecksInParallel batch false = Except.ok (batch.map dispatchResult) := by
    intro batch hbatch
    refine runChecksInParallel_ok_all_present batch false ?_ (fun hcon => by simp at hcon)
    intro c hc
    have hcj : c ∈ (pythonChunks checks b.toNat).flatten :=
      List.mem_flatten.mpr ⟨batch, hbatch, hc⟩
    rw [h3] at hcj
    exact hpt c hcj
  have h5 : runCheckBatch checks b false =
      Except.ok (((pythonChunks checks b.toNat).map
        (fun batch => batch.map dispatchResult)).flatten) := by
    unfold runCheckBatch
    rw [h1]
    have hf := foldl_runCheckBatchStep false (pythonChunks checks b.toNat) [] h4
    simp only [List.nil_append] at hf
    exact hf
  have h6 : ((pythonChunks checks b.toNat).map
      (fun batch => batch.map dispatchResult)).flatten = checks.map dispatchResult := by
    rw [← List.map_flatten, h3]
  exact ⟨h1, pythonChunks_length checks b.toNat, h3, h4, h5, h6, by simp⟩

/-- Witness for C6: nine descriptors with batch size two yield five chunks
whose concatenated results are the per-descriptor results in order. -/
theorem runCheckBatch_chunking_witness :
    runCheckBatch
      (List.range 9 |>.map (fun i =>
        (⟨Option.some (toString i), Option.some "website_status", Option.some []⟩,
         ⟨PluginBehavior.runReturns ⟨"success", "ok", 0, []⟩, true⟩))) 2 false =
      Except.ok (((pythonChunks
        (List.range 9 |>.map (fun i =>
          (⟨Option.some (toString i), Option.some "website_status", Option.some []⟩,
           ⟨PluginBehavior.runReturns ⟨"success", "ok", 0, []⟩, true⟩))) (2 : ℤ).toNat).map
        (fun batch => batch.map dispatchResult)).flatten) :=
  (runCheckBatch_chunking _ 2 (by decide) (by decide)).2.2.2.2.1

/-- C9: `run_check_batch` does not validate `batch_size`: with `batch_size = 0`
the chunk construction raises (`range` step zero, a `ValueError`) and no result
list is returned, and with a negative `batch_size` the chunk list is empty, so
the call returns the empty list — every descriptor is dropped and no check
runs. -/
theorem runCheckBatch_batch_size_unvalidated (checks : List (Descriptor × TaskSpec))
    (b : ℤ) (_hne : checks ≠ []) (hb : b < 0) :
    runCheckBatch checks 0 false = Except.error BatchError.valueError ∧
    runCheckBatch checks b false = Except.ok [] := by
  constructor
  · rfl
  · have h1 : makeBatches checks b = (Except.ok [] : Except BatchError _) := by
      unfold makeBatches
      rw [if_neg (by omega), if_pos hb]
    unfold runCheckBatch
    rw [h1]
    rfl

/-- Witness for C9: a singleton descriptor list with batch sizes `0` and `-3`. -/
theorem runCheckBatch_batch_size_unvalidated_witness :
    runCheckBatch
      [(⟨Option.some "t1", Option.some "website_status", Option.some []⟩,
        ⟨PluginBehavior.runReturns ⟨"success", "ok", 0, []⟩, true⟩)] 0 false =
      Except.error BatchError.valueError ∧
    runCheckBatch
      [(⟨Option.some "t1", Option.some "website_status", Option.some []⟩,
        ⟨PluginBehavior.runReturns ⟨"success", "ok", 0, []⟩, true⟩)] (-3) false =
      Except.ok [] :=
  runCheckBatch_batch_size_unvalidated _ (-3) (by decide) (by decide)

/-! ## DNS plugin (dns_plugin.py) -/

/-- The `expected_value` config entry of the DNS plugin: absent (`None`), a
single string, or a list of strings. -/
inductive ExpectedValue where
  | none
  | str (s : String)
  | list (l : List String)
deriving DecidableEq

/-- Python truthiness of `expected_value` as used in `if expected_value:`
(dns_plugin.py lines 285, 752): `None`, the empty string and the empty list
are falsy. -/
def truthy : ExpectedValue → Bool
  | ExpectedValue.none => false
  | ExpectedValue.str s => !(s == "")
  | ExpectedValue.list l => !l.isEmpty

/-- The match computation of `query_resolver` (dns_plugin.py lines 750-756):
`match = True`; when `expected_value` is truthy, a list must have all its
values among the answers, a string must itself be among the answers. -/
def matchesExpected (expected_value : ExpectedValue) (answer_values : List String) : Bool :=
  if truthy expected_value then
    match expected_value with
    | ExpectedValue.list l => l.all (fun v => answer_values.contains v)
    | ExpectedValue.str s => answer_values.contains s
    | ExpectedValue.none => true
  else true

/-- Oracle for what one resolver's `resolver.resolve(domain, record_type)`
does: returns answers (already formatted by `_format_answers` into comparable
strings), or raises one of the handled exceptions. -/
inductive QueryOutcome where
  | answers (values : List String)
  | nxdomain
  | noAnswer
  | queryTimeout
  | raises (msg : String)
deriving DecidableEq

/-- The fields of a per-resolver result dict that feed the propagation
statistics: its `status` value and its `match` value (dns_plugin.py lines
758-815). Identification fields, record lists and response times are carried
by the source dicts but never read by the aggregation. -/
structure ResolverResult where
  status : String
  matched : Bool
deriving DecidableEq

/-- `query_resolver` (dns_plugin.py lines 729-815): a successful query yields
`status = "success"` with the match flag computed against `expected_value`;
every failure path (NXDOMAIN, NoAnswer, Timeout, any other exception — also
the executor-loop handler at lines 829-842) yields `status = "error"` with
`match = False`. -/
def query_resolver (expected_value : ExpectedValue) (outcome : QueryOutcome) :
    ResolverResult :=
  match outcome with
  | QueryOutcome.answers values =>
      ⟨"success", matchesExpected expected_value values⟩
  | QueryOutcome.nxdomain => ⟨"error", false⟩
  | QueryOutcome.noAnswer => ⟨"error", false⟩
  | QueryOutcome.queryTimeout => ⟨"error", false⟩
  | QueryOutcome.raises _ => ⟨"error", false⟩

/-- The propagation result dict returned by `_check_propagation`
(dns_plugin.py lines 864-873). `percentage` is kept exact here; the source
additionally rounds the reported percentage to one decimal for display, after
the classification has already been computed from the exact value. The
`resolvers` detail list is omitted. -/
structure PropagationResult where
  status : String
  total_count : ℕ
  successful_count : ℕ
  consistent_count : ℕ
  percentage : ℚ
  threshold : ℚ
deriving DecidableEq

/-- The three-tier classification of `_check_propagation` (dns_plugin.py lines
854-862): `success` at or above the threshold, `warning` at or above 70% of
the threshold, `error` below that. -/
def propagationClassify (percentage propagation_threshold : ℚ) : String :=
  if percentage ≥ propagation_threshold then STATUS_SUCCESS
  else if percentage ≥ propagation_threshold * 0.7 then STATUS_WARNING
  else STATUS_ERROR

/-- The aggregation of `_check_propagation` (dns_plugin.py lines 844-873):
`total` is the number of per-resolver results, `successful` counts
`status == "success"`, `consistent` counts `match == True`, the percentage is
`consistent / total * 100` (zero when no resolvers), and the status is the
three-tier classification. -/
def propagationStats (results : List ResolverResult)
    (propagation_threshold : ℚ) : PropagationResult :=
  let total_resolvers := results.length
  let successful_resolvers := results.countP (fun r => r.status == "success")
  let consistent_resolvers := results.countP (fun r => r.matched)
  let percentage : ℚ :=
    if total_resolvers > 0 then
      (consistent_resolvers : ℚ) / (total_resolvers : ℚ) * 100
    else 0
  ⟨propagationClassify percentage propagation_threshold, total_resolvers,
    successful_resolvers, consistent_resolvers, percentage, propagation_threshold⟩

/-- `_check_propagation` (dns_plugin.py lines 695-873) as a function of the
per-resolver query outcomes (one per configured resolver, in order; the
thread-pool fan-out produces exactly one result dict per resolver). -/
def check_propagation (expected_value : ExpectedValue)
    (outcomes : List QueryOutcome) (propagation_threshold : ℚ) : PropagationResult :=
  propagationStats (outcomes.map (query_resolver expected_value)) propagation_threshold

/-! ### Overall status aggregation of DNSRecordPlugin.run_check -/

/-- Status after the expected-value comparison (dns_plugin.py lines 334-347):
start from `success`; an expected value that is truthy and not matched forces
`error`. -/
def statusAfterExpected (expected_value : ExpectedValue)
    (expected_value_match : Bool) : String :=
  if truthy expected_value && !expected_value_match then STATUS_ERROR
  else STATUS_SUCCESS

/-- Status after the authoritative sub-check (dns_plugin.py lines 349-354):
when the check ran (`is_authoritative = some b`) and the response was not
authoritative, the status is set to `warning` unconditionally — there is no
guard against overwriting an earlier `error`. -/
def statusAfterAuthoritative (expected_value : ExpectedValue)
    (expected_value_match : Bool) (is_authoritative : Option Bool) : String :=
  if is_authoritative = Option.some false then STATUS_WARNING
  else statusAfterExpected expected_value expected_value_match

/-- Status after the DNSSEC sub-check (dns_plugin.py lines 356-359): a failed
validation forces `error`. -/
def statusAfterDnssec (expected_value : ExpectedValue)
    (expected_value_match : Bool) (is_authoritative : Option Bool)
    (dnssec_is_valid : Option Bool) : String :=
  if dnssec_is_valid = Option.some false then STATUS_ERROR
  else statusAfterAuthoritative expected_value expected_value_match is_authoritative

/-- The overall status computed by `DNSRecordPlugin.run_check` (dns_plugin.py
lines 333-378) on the path where the base lookup answered, as a function of
the expected-value comparison and the three optional sub-results (each
`Option.none` when its sub-check was not requested). The propagation branch is
the only one guarded against downgrading an `error`. -/
def dnsOverallStatus (expected_value : ExpectedValue) (expected_value_match : Bool)
    (is_authoritative : Option Bool) (dnssec_is_valid : Option Bool)
    (prop_status : Option String) : String :=
  match prop_status with
  | Option.none =>
      statusAfterDnssec expected_value expected_value_match is_authoritative dnssec_is_valid
  | Option.some p =>
      if p = STATUS_ERROR then STATUS_ERROR
      else if p = STATUS_WARNING then
        (if statusAfterDnssec expected_value expected_value_match
              is_authoritative dnssec_is_valid ≠ STATUS_ERROR then STATUS_WARNING
         else statusAfterDnssec expected_value expected_value_match
              is_authoritative dnssec_is_valid)
      else statusAfterDnssec expected_value expected_value_match
            is_authoritative dnssec_is_valid

/-- Severity of a status in the order success < warning < error; only `error`
has severity 2 and only `warning` has severity 1. -/
def severity (s : String) : ℕ :=
  if s = STATUS_ERROR then 2
  else if s = STATUS_WARNING then 1
  else 0

/-! ## Claim C3 -/

/-- Helper: the three-tier classification, unfolded into the exact inequality
characterisations of each tier. -/
theorem propagationClassify_iff (p t : ℚ) (h0 : 0 ≤ t) :
    (propagationClassify p t = STATUS_SUCCESS ↔ t ≤ p) ∧
    (propagationClassify p t = STATUS_WARNING ↔ p < t ∧ 0.7 * t ≤ p) ∧
    (propagationClassify p t = STATUS_ERROR ↔ p < 0.7 * t) := by
  unfold propagationClassify
  split_ifs with h1 h2
  · refine ⟨⟨fun _ => h1, fun _ => rfl⟩, ⟨?_, ?_⟩, ⟨?_, ?_⟩⟩
    · intro hs
      exact absurd hs (by decide)
    · rintro ⟨hlt, _⟩
      exact absurd h1 (not_le.mpr hlt)
    · intro hs
      exact absurd hs (by decide)
    · intro hlt
      linarith
  · refine ⟨⟨?_, ?_⟩, ⟨fun _ => ⟨?_, ?_⟩, fun _ => rfl⟩, ⟨?_, ?_⟩⟩
    · intro hs
      exact absurd hs (by decide)
    · intro hle
      exact absurd hle h1
    · exact not_le.mp h1
    · linarith
    · intro hs
      exact absurd hs (by decide)
    · intro hlt
      linarith
  · refine ⟨⟨?_, ?_⟩, ⟨?_, ?_⟩, ⟨fun _ => ?_, fun _ => rfl⟩⟩
    · intro hs
      exact absurd hs (by decide)
    · intro hle
      exact absurd hle h1
    · intro hs
      exact absurd hs (by decide)
    · rintro ⟨_, hge⟩
      exact absurd (by linarith : p ≥ t * 0.7) h2
    · have h3 := not_le.mp h2
      linarith

/-- Helper: the fields of the propagation result, as computed by the
aggregation lines of `_check_propagation`. -/
theorem check_propagation_fields (ev : ExpectedValue) (outcomes : List QueryOutcome)
    (t : ℚ) :
    (check_propagation ev outcomes t).total_count = outcomes.length ∧
    (check_propagation ev outcomes t).successful_count =
      (outcomes.map (query_resolver ev)).countP (fun r => r.status == "success") ∧
    (check_propagation ev outcomes t).consistent_count =
      (outcomes.map (query_resolver ev)).countP (fun r => r.matched) ∧
    (check_propagation ev outcomes t).percentage =
      (if outcomes.length = 0 then 0 else
        (((outcomes.map (query_resolver ev)).countP (fun r => r.matched) : ℚ) /
          (outcomes.length : ℚ)) * 100) ∧
    (check_propagation ev outcomes t).status =
      propagationClassify (check_propagation ev outcomes t).percentage t := by
  refine ⟨by simp [check_propagation, propagationStats], rfl, rfl, ?_, rfl⟩
  show (if (outcomes.map (query_resolver ev)).length > 0 then
      ((outcomes.map (query_resolver ev)).countP (fun r => r.matched) : ℚ) /
        ((outcomes.map (query_resolver ev)).length : ℚ) * 100
    else 0) = _
  rw [List.length_map]
  by_cases h0 : outcomes.length = 0
  · rw [if_neg (by omega), if_pos h0]
  · rw [if_pos (by omega), if_neg h0]

/-- C3: the propagation consensus computes `total` as the number of resolvers
queried, `consistent` as the number of matching per-resolver results,
`percentage = consistent / total * 100` (zero for no resolvers), and
classifies `success` iff `percentage ≥ t`, `warning` iff
`0.7·t ≤ percentage < t`, `error` otherwise; an empty resolver list gives 0%,
classified `error` unless `t = 0`, in which case `success`. -/
theorem check_propagation_consensus (ev : ExpectedValue) (outcomes : List QueryOutcome)
    (t : ℚ) (h0 : 0 ≤ t) (_h1 : t ≤ 100) :
    (check_propagation ev outcomes t).total_count = outcomes.length ∧
    (check_propagation ev outcomes t).consistent_count =
      (outcomes.map (query_resolver ev)).countP (fun r => r.matched) ∧
    (check_propagation ev outcomes t).percentage =
      (if outcomes.length = 0 then 0 else
        (((check_propagation ev outcomes t).consistent_count : ℚ) /
          (outcomes.length : ℚ)) * 100) ∧
    ((check_propagation ev outcomes t).status = STATUS_SUCCESS ↔
      t ≤ (check_propagation ev outcomes t).percentage) ∧
    ((check_propagation ev outcomes t).status = STATUS_WARNING ↔
      (check_propagation ev outcomes t).percentage < t ∧
        0.7 * t ≤ (check_propagation ev outcomes t).percentage) ∧
    ((check_propagation ev outcomes t).status = STATUS_ERROR ↔
      (check_propagation ev outcomes t).percentage < 0.7 * t) ∧
    (outcomes = [] → (check_propagation ev outcomes t).percentage = 0 ∧
      (t = 0 → (check_propagation ev outcomes t).status = STATUS_SUCCESS) ∧
      (0 < t → (check_propagation ev outcomes t).status = STATUS_ERROR)) := by
  obtain ⟨hf1, hf2, hf3, hf4, hf5⟩ := check_propagation_fields ev outcomes t
  obtain ⟨hc1, hc2, hc3⟩ :=
    propagationClassify_iff (check_propagation ev outcomes t).percentage t h0
  refine ⟨hf1, hf3, by rw [hf4, hf3], by rw [hf5]; exact hc1, by rw [hf5]; exact hc2,
    by rw [hf5]; exact hc3, ?_⟩
  intro hnil
  have hp0 : (check_propagation ev outcomes t).percentage = 0 := by
    rw [hf4, hnil]
    simp
  refine ⟨hp0, fun ht0 => ?_, fun htpos => ?_⟩
  · rw [hf5]
    exact (propagationClassify_iff _ t h0).1.mpr (by rw [hp0, ht0])
  · rw [hf5]
    exact (propagationClassify_iff _ t h0).2.2.mpr (by rw [hp0]; linarith)

/-- Witness for C3: one matching answer out of two resolvers is 50%
propagation, classified `success` against a threshold of 50. -/
theorem check_propagation_consensus_witness :
    ((check_propagation (ExpectedValue.str "1.2.3.4")
        [QueryOutcome.answers ["1.2.3.4"], QueryOutcome.nxdomain] 50).status =
      STATUS_SUCCESS ↔
      (50 : ℚ) ≤ (check_propagation (ExpectedValue.str "1.2.3.4")
        [QueryOutcome.answers ["1.2.3.4"], QueryOutcome.nxdomain] 50).percentage) :=
  (check_propagation_consensus (ExpectedValue.str "1.2.3.4")
    [QueryOutcome.answers ["1.2.3.4"], QueryOutcome.nxdomain] 50
    (by norm_num) (by norm_num)).2.2.2.1

/-! ## Claim C10 -/

/-- C10: when `expected_value` is absent, the empty string or the empty list
(all falsy), every resolver whose query returns an answer is counted as
matching, so `consistent` equals `successful` and the propagation percentage
is exactly the fraction of resolvers that answered at all. -/
theorem check_propagation_falsy_expected (ev : ExpectedValue)
    (outcomes : List QueryOutcome) (t : ℚ) (h : truthy ev = false) :
    (∀ values, (query_resolver ev (QueryOutcome.answers values)).matched = true) ∧
    (check_propagation ev outcomes t).consistent_count =
      (check_propagation ev outcomes t).successful_count ∧
    (check_propagation ev outcomes t).percentage =
      (if outcomes.length = 0 then 0 else
        (((check_propagation ev outcomes t).successful_count : ℚ) /
          (outcomes.length : ℚ)) * 100) := by
  obtain ⟨hf1, hf2, hf3, hf4, hf5⟩ := check_propagation_fields ev outcomes t
  have hpoint : ∀ oc : QueryOutcome,
      (query_resolver ev oc).matched = ((query_resolver ev oc).status == "success") := by
    intro oc
    cases oc <;> simp [query_resolver, matchesExpected, h]
  have hcount : (outcomes.map (query_resolver ev)).countP (fun r => r.matched) =
      (outcomes.map (query_resolver ev)).countP (fun r => r.status == "success") := by
    apply List.countP_congr
    intro r hr
    rcases List.mem_map.mp hr with ⟨oc, _, rfl⟩
    simp [hpoint oc]
  refine ⟨fun values => by simp [query_resolver, matchesExpected, h], ?_, ?_⟩
  · rw [hf3, hf2, hcount]
  · rw [hf4, hf2, hcount]

/-- Witness for C10: with an absent expected value, a resolver answering with
arbitrary values still counts as matching. -/
theorem check_propagation_falsy_expected_witness :
    (query_resolver ExpectedValue.none
      (QueryOutcome.answers ["203.0.113.9"])).matched = true :=
  (check_propagation_falsy_expected ExpectedValue.none [] 80 (by decide)).1
    ["203.0.113.9"]

/-! ## Claim C2 -/

/-- Helper: severity never exceeds that of `error`. -/
theorem severity_le_two (s : String) : severity s ≤ 2 := by
  unfold severity
  split_ifs <;> omega

/-- Helper: a status other than `error` has severity at most that of
`warning`. -/
theorem severity_le_one_of_ne_error (s : String) (h : s ≠ STATUS_ERROR) :
    severity s ≤ 1 := by
  unfold severity
  split_ifs with h1 h2
  · exact absurd h1 h
  · omega
  · omega

/-- C2 is false on the code: with an expected-value mismatch the aggregate is
already `error`, yet a non-authoritative response then overwrites it to
`warning` — the authoritative sub-check has no guard against improving an
`error` aggregate. -/
theorem dnsOverallStatus_error_upgraded :
    dnsOverallStatus (ExpectedValue.str "192.0.2.1") false
      Option.none Option.none Option.none = STATUS_ERROR ∧
    dnsOverallStatus (ExpectedValue.str "192.0.2.1") false
      (Option.some false) Option.none Option.none = STATUS_WARNING ∧
    severity STATUS_WARNING < severity STATUS_ERROR := by
  decide

/-- C2 amended: as long as the authoritative sub-check is absent or reports an
authoritative response, every sub-check's contribution keeps the aggregate or
moves it toward `error` (the DNSSEC and propagation steps are non-improving
unconditionally, and an `error` aggregate stays `error`); the exception the
counterexample forces is the non-authoritative case, which sets the aggregate
to `warning` even over an existing `error`. -/
theorem dnsOverallStatus_non_improving (ev : ExpectedValue) (m : Bool)
    (auth dnssec : Option Bool) (prop : Option String)
    (hauth : auth ≠ Option.some false) :
    severity (statusAfterExpected ev m) ≤
      severity (statusAfterAuthoritative ev m auth) ∧
    severity (statusAfterAuthoritative ev m auth) ≤
      severity (statusAfterDnssec ev m auth dnssec) ∧
    severity (statusAfterDnssec ev m auth dnssec) ≤
      severity (dnsOverallStatus ev m auth dnssec prop) ∧
    (statusAfterExpected ev m = STATUS_ERROR →
      dnsOverallStatus ev m auth dnssec prop = STATUS_ERROR) := by
  have hA : statusAfterAuthoritative ev m auth = statusAfterExpected ev m := by
    unfold statusAfterAuthoritative
    rw [if_neg hauth]
  refine ⟨le_of_eq (by rw [hA]), ?_, ?_, ?_⟩
  · unfold statusAfterDnssec
    split_ifs with hds
    · exact severity_le_two _
    · exact le_refl _
  · cases prop with
    | none => exact le_refl _
    | some p =>
      by_cases hp1 : p = STATUS_ERROR
      · have hred : dnsOverallStatus ev m auth dnssec (Option.some p) = STATUS_ERROR := by
          simp only [dnsOverallStatus]
          rw [if_pos hp1]
        rw [hred]
        exact severity_le_two _
      · by_cases hp2 : p = STATUS_WARNING
        · by_cases hne : statusAfterDnssec ev m auth dnssec = STATUS_ERROR
          · have hred : dnsOverallStatus ev m auth dnssec (Option.some p) =
                statusAfterDnssec ev m auth dnssec := by
              simp only [dnsOverallStatus]
              rw [if_neg hp1, if_pos hp2, if_neg (not_not_intro hne)]
            rw [hred]
          · have hred : dnsOverallStatus ev m auth dnssec (Option.some p) =
                STATUS_WARNING := by
              simp only [dnsOverallStatus]
              rw [if_neg hp1, if_pos hp2, if_pos hne]
            rw [hred]
            exact severity_le_one_of_ne_error _ hne
        · have hred : dnsOverallStatus ev m auth dnssec (Option.some p) =
              statusAfterDnssec ev m auth dnssec := by
            simp only [dnsOverallStatus]
            rw [if_neg hp1, if_neg hp2]
          rw [hred]
  · intro herr
    have h3 : statusAfterDnssec ev m auth dnssec = STATUS_ERROR := by
      unfold statusAfterDnssec
      split_ifs with hds
      · rfl
      · rw [hA, herr]
    cases prop with
    | none => exact h3
    | some p =>
      by_cases hp1 : p = STATUS_ERROR
      · simp only [dnsOverallStatus]
        rw [if_pos hp1]
      · by_cases hp2 : p = STATUS_WARNING
        · simp only [dnsOverallStatus]
          rw [if_neg hp1, if_pos hp2, if_neg (not_not_intro h3)]
          exact h3
        · simp only [dnsOverallStatus]
          rw [if_neg hp1, if_neg hp2]
          exact h3

/-- Witness for C2's amended statement: with the authoritative check absent, a
failed DNSSEC validation composed with a propagation warning leaves the
aggregate at `error`. -/
theorem dnsOverallStatus_non_improving_witness :
    severity (statusAfterDnssec (ExpectedValue.str "x") false
        Option.none (Option.some false)) ≤
      severity (dnsOverallStatus (ExpectedValue.str "x") false
        Option.none (Option.some false) (Option.some STATUS_WARNING)) :=
  (dnsOverallStatus_non_improving (ExpectedValue.str "x") false
    Option.none (Option.some false) (Option.some STATUS_WARNING) (by decide)).2.2.1

end MonitorPy
